import Mathlib

/-!
# amdxdna_accel.h: constants and structure layouts of the AMD XDNA uapi header

The header `src/include/uapi/drm_local/amdxdna_accel.h` holds only `#define`
constants and structure declarations. The constants are embedded as `Nat`
definitions under their C names, the structures as lists of typed fields in
declaration order, and the C layout rules (natural alignment) as executable
functions over those lists.
-/

namespace AmdXdna

/-! ## Constants -/

def AMDXDNA_DRIVER_MAJOR : Nat := 1
def AMDXDNA_DRIVER_MINOR : Nat := 0

def AMDXDNA_INVALID_CTX_HANDLE : Nat := 0
def AMDXDNA_INVALID_BO_HANDLE : Nat := 0
def AMDXDNA_INVALID_FENCE_HANDLE : Nat := 0

def DRM_AMDXDNA_CREATE_HWCTX : Nat := 0
def DRM_AMDXDNA_DESTROY_HWCTX : Nat := 1
def DRM_AMDXDNA_CONFIG_HWCTX : Nat := 2
def DRM_AMDXDNA_CREATE_BO : Nat := 3
def DRM_AMDXDNA_GET_BO_INFO : Nat := 4
def DRM_AMDXDNA_SYNC_BO : Nat := 5
def DRM_AMDXDNA_EXEC_CMD : Nat := 6
def DRM_AMDXDNA_GET_INFO : Nat := 7
def DRM_AMDXDNA_SET_STATE : Nat := 8
def DRM_AMDXDNA_WAIT_CMD : Nat := 9
def DRM_AMDXDNA_GET_INFO_ARRAY : Nat := 10

def AMDXDNA_QOS_REALTIME_PRIORITY : Nat := 0x100
def AMDXDNA_QOS_HIGH_PRIORITY : Nat := 0x180
def AMDXDNA_QOS_NORMAL_PRIORITY : Nat := 0x200
def AMDXDNA_QOS_LOW_PRIORITY : Nat := 0x280
/-- The maximum number of priority. -/
def AMDXDNA_NUM_PRIORITY : Nat := 4

def AMDXDNA_BO_INVALID : Nat := 0
def AMDXDNA_BO_SHARE : Nat := 1
def AMDXDNA_BO_DEV_HEAP : Nat := 2
def AMDXDNA_BO_DEV : Nat := 3
def AMDXDNA_BO_CMD : Nat := 4
def AMDXDNA_BO_DMA : Nat := 5

def AMDXDNA_CMD_SUBMIT_EXEC_BUF : Nat := 0
def AMDXDNA_CMD_SUBMIT_DEPENDENCY : Nat := 1
def AMDXDNA_CMD_SUBMIT_SIGNAL : Nat := 2

def DRM_AMDXDNA_QUERY_HW_CONTEXTS_ARRAY : Nat := 0
def AMDXDNA_MAX_NUM_ELEMENT : Nat := 1024

/-! ## Structure declarations as data -/

/-- The element type of a field: one of the fixed-width kernel integer types,
or a structure held by value (recorded with its name, size and alignment). -/
inductive CTy where
  | u8 | s8 | u16 | u32 | s32 | u64 | s64
  | agg (name : String) (size align : Nat)
  deriving DecidableEq, Repr

/-- Size in bytes of one element. -/
def CTy.size : CTy → Nat
  | .u8 => 1 | .s8 => 1 | .u16 => 2 | .u32 => 4 | .s32 => 4 | .u64 => 8 | .s64 => 8
  | .agg _ sz _ => sz

/-- Natural alignment of one element: an integer is aligned to its own size. -/
def CTy.align : CTy → Nat
  | .agg _ _ al => al
  | t => t.size

/-- Width in bits of one element. -/
def CTy.bits (t : CTy) : Nat := 8 * t.size

/-- How many elements a field declares: `T f;`, `T f[n];` or `T f[];`. -/
inductive Count where
  | one
  | array (n : Nat)
  | flexible
  deriving DecidableEq, Repr

structure Field where
  name : String
  ty : CTy
  count : Count
  deriving DecidableEq, Repr

/-- Bytes the field contributes to `sizeof`; a flexible array member contributes none. -/
def Field.size (f : Field) : Nat :=
  match f.count with
  | .one => f.ty.size
  | .array n => n * f.ty.size
  | .flexible => 0

structure Struct where
  name : String
  fields : List Field
  deriving DecidableEq, Repr

/-- Round `off` up to the next multiple of `a`. -/
def alignUp (off a : Nat) : Nat := (off + a - 1) / a * a

/-- Alignment of a structure: that of its widest member. -/
def Struct.alignof (s : Struct) : Nat :=
  s.fields.foldl (fun a f => max a f.ty.align) 1

/-- Offsets the compiler gives the fields, starting at `off`: each field is
placed at the next offset aligned for its element type. Returns the fields
with their offsets and the offset just past the last field. -/
def layoutFrom : Nat → List Field → List (Field × Nat) × Nat
  | off, [] => ([], off)
  | off, f :: fs =>
    let o := alignUp off f.ty.align
    let r := layoutFrom (o + f.size) fs
    ((f, o) :: r.1, r.2)

def Struct.layout (s : Struct) : List (Field × Nat) := (layoutFrom 0 s.fields).1

/-- Value of `sizeof (struct s)`: the end of the last field rounded up to the
alignment of the structure. -/
def Struct.sizeof (s : Struct) : Nat := alignUp (layoutFrom 0 s.fields).2 s.alignof

/-- Value of `offsetof (struct s, name)`, when the field exists. -/
def Struct.offsetof (s : Struct) (name : String) : Option Nat :=
  (s.layout.find? (fun p => p.1.name == name)).map (·.2)

def Struct.field? (s : Struct) (name : String) : Option Field :=
  s.fields.find? (fun f => f.name == name)

def Struct.hasField (s : Struct) (name : String) : Bool :=
  s.fields.any (fun f => f.name == name)

/-- The structure used as the type of a member of another structure. -/
def Struct.ty (s : Struct) : CTy := .agg s.name s.sizeof s.alignof

def fld (t : CTy) (name : String) : Field := ⟨name, t, .one⟩
def arr (t : CTy) (name : String) (n : Nat) : Field := ⟨name, t, .array n⟩
def flex (t : CTy) (name : String) : Field := ⟨name, t, .flexible⟩

def amdxdna_qos_info : Struct :=
  ⟨"amdxdna_qos_info", [
    fld .u32 "gops",
    fld .u32 "fps",
    fld .u32 "dma_bandwidth",
    fld .u32 "latency",
    fld .u32 "frame_exec_time",
    fld .u32 "priority"]⟩

def amdxdna_drm_create_hwctx : Struct :=
  ⟨"amdxdna_drm_create_hwctx", [
    fld .u64 "ext",
    fld .u64 "ext_flags",
    fld .u64 "qos_p",
    fld .u32 "umq_bo",
    fld .u32 "log_buf_bo",
    fld .u32 "max_opc",
    fld .u32 "num_tiles",
    fld .u32 "mem_size",
    fld .u32 "umq_doorbell",
    fld .u32 "handle",
    fld .u32 "syncobj_handle"]⟩

def amdxdna_drm_destroy_hwctx : Struct :=
  ⟨"amdxdna_drm_destroy_hwctx", [
    fld .u32 "handle",
    fld .u32 "pad"]⟩

def amdxdna_cu_config : Struct :=
  ⟨"amdxdna_cu_config", [
    fld .u32 "cu_bo",
    fld .u8 "cu_func",
    arr .u8 "pad" 3]⟩

def amdxdna_hwctx_param_config_cu : Struct :=
  ⟨"amdxdna_hwctx_param_config_cu", [
    fld .u16 "num_cus",
    arr .u16 "pad" 3,
    flex amdxdna_cu_config.ty "cu_configs"]⟩

def uc_info_entry : Struct :=
  ⟨"uc_info_entry", [
    fld .u32 "index",
    fld .u32 "size"]⟩

def fw_buffer_metadata : Struct :=
  ⟨"fw_buffer_metadata", [
    fld .u8 "buf_type",
    fld .u8 "num_ucs",
    arr .u8 "pad" 48,
    fld .u64 "command_id",
    fld .u64 "bo_handle",
    flex uc_info_entry.ty "uc_info"]⟩

def amdxdna_drm_config_hwctx : Struct :=
  ⟨"amdxdna_drm_config_hwctx", [
    fld .u32 "handle",
    fld .u32 "param_type",
    fld .u64 "param_val",
    fld .u32 "param_val_size",
    fld .u32 "pad"]⟩

def amdxdna_drm_va_entry : Struct :=
  ⟨"amdxdna_drm_va_entry", [
    fld .u64 "vaddr",
    fld .u64 "len"]⟩

def amdxdna_drm_va_tbl : Struct :=
  ⟨"amdxdna_drm_va_tbl", [
    fld .s32 "udma_fd",
    fld .u32 "num_entries",
    flex amdxdna_drm_va_entry.ty "va_entries"]⟩

def amdxdna_drm_create_bo : Struct :=
  ⟨"amdxdna_drm_create_bo", [
    fld .u64 "flags",
    fld .u64 "vaddr",
    fld .u64 "size",
    fld .u32 "type",
    fld .u32 "handle"]⟩

def amdxdna_drm_get_bo_info : Struct :=
  ⟨"amdxdna_drm_get_bo_info", [
    fld .u64 "ext",
    fld .u64 "ext_flags",
    fld .u32 "handle",
    fld .u32 "pad",
    fld .u64 "map_offset",
    fld .u64 "vaddr",
    fld .u64 "xdna_addr"]⟩

def amdxdna_drm_sync_bo : Struct :=
  ⟨"amdxdna_drm_sync_bo", [
    fld .u32 "handle",
    fld .u32 "direction",
    fld .u64 "offset",
    fld .u64 "size"]⟩

def amdxdna_drm_exec_cmd : Struct :=
  ⟨"amdxdna_drm_exec_cmd", [
    fld .u64 "ext",
    fld .u64 "ext_flags",
    fld .u32 "hwctx",
    fld .u32 "type",
    fld .u64 "cmd_handles",
    fld .u64 "args",
    fld .u32 "cmd_count",
    fld .u32 "arg_count",
    fld .u64 "seq"]⟩

def amdxdna_drm_wait_cmd : Struct :=
  ⟨"amdxdna_drm_wait_cmd", [
    fld .u32 "hwctx",
    fld .u32 "timeout",
    fld .u64 "seq"]⟩

def amdxdna_drm_query_aie_status : Struct :=
  ⟨"amdxdna_drm_query_aie_status", [
    fld .u64 "buffer",
    fld .u32 "buffer_size",
    fld .u32 "cols_filled"]⟩

def amdxdna_drm_query_aie_version : Struct :=
  ⟨"amdxdna_drm_query_aie_version", [
    fld .u32 "major",
    fld .u32 "minor"]⟩

def amdxdna_drm_query_aie_tile_metadata : Struct :=
  ⟨"amdxdna_drm_query_aie_tile_metadata", [
    fld .u16 "row_count",
    fld .u16 "row_start",
    fld .u16 "dma_channel_count",
    fld .u16 "lock_count",
    fld .u16 "event_reg_count",
    arr .u16 "pad" 3]⟩

def amdxdna_drm_query_aie_metadata : Struct :=
  ⟨"amdxdna_drm_query_aie_metadata", [
    fld .u32 "col_size",
    fld .u16 "cols",
    fld .u16 "rows",
    fld amdxdna_drm_query_aie_version.ty "version",
    fld amdxdna_drm_query_aie_tile_metadata.ty "core",
    fld amdxdna_drm_query_aie_tile_metadata.ty "mem",
    fld amdxdna_drm_query_aie_tile_metadata.ty "shim"]⟩

def amdxdna_drm_query_clock : Struct :=
  ⟨"amdxdna_drm_query_clock", [
    arr .u8 "name" 16,
    fld .u32 "freq_mhz",
    fld .u32 "pad"]⟩

def amdxdna_drm_query_clock_metadata : Struct :=
  ⟨"amdxdna_drm_query_clock_metadata", [
    fld amdxdna_drm_query_clock.ty "mp_npu_clock",
    fld amdxdna_drm_query_clock.ty "h_clock"]⟩

def amdxdna_drm_query_sensor : Struct :=
  ⟨"amdxdna_drm_query_sensor", [
    arr .u8 "label" 64,
    fld .u32 "input",
    fld .u32 "max",
    fld .u32 "average",
    fld .u32 "highest",
    arr .u8 "status" 64,
    arr .u8 "units" 16,
    fld .s8 "unitm",
    fld .u8 "type",
    arr .u8 "pad" 6]⟩

def amdxdna_drm_query_hwctx : Struct :=
  ⟨"amdxdna_drm_query_hwctx", [
    fld .u32 "context_id",
    fld .u32 "start_col",
    fld .u32 "num_col",
    fld .u32 "pad",
    fld .s64 "pid",
    fld .u64 "command_submissions",
    fld .u64 "command_completions",
    fld .u64 "migrations",
    fld .u64 "preemptions",
    fld .u64 "errors"]⟩

def amdxdna_drm_aie_mem : Struct :=
  ⟨"amdxdna_drm_aie_mem", [
    fld .u32 "col",
    fld .u32 "row",
    fld .u32 "addr",
    fld .u32 "size",
    fld .u64 "buf_p"]⟩

def amdxdna_drm_aie_reg : Struct :=
  ⟨"amdxdna_drm_aie_reg", [
    fld .u32 "col",
    fld .u32 "row",
    fld .u32 "addr",
    fld .u32 "val"]⟩

def amdxdna_drm_get_power_mode : Struct :=
  ⟨"amdxdna_drm_get_power_mode", [
    fld .u8 "power_mode",
    arr .u8 "pad" 7]⟩

def amdxdna_drm_query_firmware_version : Struct :=
  ⟨"amdxdna_drm_query_firmware_version", [
    fld .u32 "major",
    fld .u32 "minor",
    fld .u32 "patch",
    fld .u32 "build"]⟩

def amdxdna_drm_query_ve2_firmware_version : Struct :=
  ⟨"amdxdna_drm_query_ve2_firmware_version", [
    fld .u8 "major",
    fld .u8 "minor",
    arr .u8 "date" 14,
    arr .u8 "git_hash" 48]⟩

def amdxdna_drm_get_resource_info : Struct :=
  ⟨"amdxdna_drm_get_resource_info", [
    fld .u64 "npu_clk_max",
    fld .u64 "npu_tops_max",
    fld .u64 "npu_task_max",
    fld .u64 "npu_tops_curr",
    fld .u64 "npu_task_curr"]⟩

def amdxdna_drm_attribute_state : Struct :=
  ⟨"amdxdna_drm_attribute_state", [
    fld .u8 "state",
    arr .u8 "pad" 7]⟩

def amdxdna_drm_query_telemetry_header : Struct :=
  ⟨"amdxdna_drm_query_telemetry_header", [
    fld .u32 "major",
    fld .u32 "minor",
    fld .u32 "type",
    fld .u32 "map_num_elements",
    flex .u32 "map"]⟩

def amdxdna_drm_get_info : Struct :=
  ⟨"amdxdna_drm_get_info", [
    fld .u32 "param",
    fld .u32 "buffer_size",
    fld .u64 "buffer"]⟩

def amdxdna_drm_query_hwctx_array : Struct :=
  ⟨"amdxdna_drm_query_hwctx_array", [
    fld .u32 "context_id",
    fld .u32 "start_col",
    fld .u32 "num_col",
    fld .u32 "hwctx_id",
    fld .s64 "pid",
    fld .u64 "command_submissions",
    fld .u64 "command_completions",
    fld .u64 "migrations",
    fld .u64 "preemptions",
    fld .u64 "errors",
    fld .u64 "priority",
    fld .u64 "heap_usage",
    fld .u64 "suspensions",
    fld .u32 "state",
    fld .u32 "pasid",
    fld .u32 "gops",
    fld .u32 "fps",
    fld .u32 "dma_bandwidth",
    fld .u32 "latency",
    fld .u32 "frame_exec_time"]⟩

def amdxdna_drm_get_info_array : Struct :=
  ⟨"amdxdna_drm_get_info_array", [
    fld .u32 "param",
    fld .u32 "element_size",
    fld .u32 "num_element",
    fld .u32 "pad",
    fld .u64 "buffer"]⟩

def amdxdna_drm_set_power_mode : Struct :=
  ⟨"amdxdna_drm_set_power_mode", [
    fld .u8 "power_mode",
    arr .u8 "pad" 7]⟩

def amdxdna_drm_set_state : Struct :=
  ⟨"amdxdna_drm_set_state", [
    fld .u32 "param",
    fld .u32 "buffer_size",
    fld .u64 "buffer"]⟩

/-- Every structure the header declares, in declaration order. -/
def allStructs : List Struct := [
  amdxdna_qos_info, amdxdna_drm_create_hwctx, amdxdna_drm_destroy_hwctx,
  amdxdna_cu_config, amdxdna_hwctx_param_config_cu, uc_info_entry,
  fw_buffer_metadata, amdxdna_drm_config_hwctx, amdxdna_drm_va_entry,
  amdxdna_drm_va_tbl, amdxdna_drm_create_bo, amdxdna_drm_get_bo_info,
  amdxdna_drm_sync_bo, amdxdna_drm_exec_cmd, amdxdna_drm_wait_cmd,
  amdxdna_drm_query_aie_status, amdxdna_drm_query_aie_version,
  amdxdna_drm_query_aie_tile_metadata, amdxdna_drm_query_aie_metadata,
  amdxdna_drm_query_clock, amdxdna_drm_query_clock_metadata,
  amdxdna_drm_query_sensor, amdxdna_drm_query_hwctx, amdxdna_drm_aie_mem,
  amdxdna_drm_aie_reg, amdxdna_drm_get_power_mode,
  amdxdna_drm_query_firmware_version, amdxdna_drm_query_ve2_firmware_version,
  amdxdna_drm_get_resource_info, amdxdna_drm_attribute_state,
  amdxdna_drm_query_telemetry_header, amdxdna_drm_get_info,
  amdxdna_drm_query_hwctx_array, amdxdna_drm_get_info_array,
  amdxdna_drm_set_power_mode, amdxdna_drm_set_state]

/-- The `DRM_IOCTL_AMDXDNA_*` requests, in the order the header defines them:
the opcode added to `DRM_COMMAND_BASE` and the structure passed. -/
def ioctlRequests : List (Nat × Struct) := [
  (DRM_AMDXDNA_CREATE_HWCTX, amdxdna_drm_create_hwctx),
  (DRM_AMDXDNA_DESTROY_HWCTX, amdxdna_drm_destroy_hwctx),
  (DRM_AMDXDNA_CONFIG_HWCTX, amdxdna_drm_config_hwctx),
  (DRM_AMDXDNA_CREATE_BO, amdxdna_drm_create_bo),
  (DRM_AMDXDNA_GET_BO_INFO, amdxdna_drm_get_bo_info),
  (DRM_AMDXDNA_SYNC_BO, amdxdna_drm_sync_bo),
  (DRM_AMDXDNA_EXEC_CMD, amdxdna_drm_exec_cmd),
  (DRM_AMDXDNA_WAIT_CMD, amdxdna_drm_wait_cmd),
  (DRM_AMDXDNA_GET_INFO, amdxdna_drm_get_info),
  (DRM_AMDXDNA_GET_INFO_ARRAY, amdxdna_drm_get_info_array),
  (DRM_AMDXDNA_SET_STATE, amdxdna_drm_set_state)]

/-- The `DRM_AMDXDNA_*` opcodes in the order of their `#define` lines. -/
def opcodes : List Nat := [
  DRM_AMDXDNA_CREATE_HWCTX, DRM_AMDXDNA_DESTROY_HWCTX, DRM_AMDXDNA_CONFIG_HWCTX,
  DRM_AMDXDNA_CREATE_BO, DRM_AMDXDNA_GET_BO_INFO, DRM_AMDXDNA_SYNC_BO,
  DRM_AMDXDNA_EXEC_CMD, DRM_AMDXDNA_GET_INFO, DRM_AMDXDNA_SET_STATE,
  DRM_AMDXDNA_WAIT_CMD, DRM_AMDXDNA_GET_INFO_ARRAY]

/-- The four `AMDXDNA_QOS_*_PRIORITY` constants in the order of their `#define` lines. -/
def qosPriorities : List Nat := [
  AMDXDNA_QOS_REALTIME_PRIORITY, AMDXDNA_QOS_HIGH_PRIORITY,
  AMDXDNA_QOS_NORMAL_PRIORITY, AMDXDNA_QOS_LOW_PRIORITY]

/-- The valid `AMDXDNA_BO_*` type codes in the order of their `#define` lines. -/
def boTypes : List Nat := [
  AMDXDNA_BO_SHARE, AMDXDNA_BO_DEV_HEAP, AMDXDNA_BO_DEV, AMDXDNA_BO_CMD, AMDXDNA_BO_DMA]

/-- The operations of the interface, one per `DRM_AMDXDNA_*` opcode. -/
inductive Operation where
  | CREATE_HWCTX | DESTROY_HWCTX | CONFIG_HWCTX | CREATE_BO | GET_BO_INFO | SYNC_BO
  | EXEC_CMD | GET_INFO | SET_STATE | WAIT_CMD | GET_INFO_ARRAY
  deriving DecidableEq, Repr

/-- The opcode the header defines for an operation. -/
def Operation.opcode : Operation → Nat
  | .CREATE_HWCTX => DRM_AMDXDNA_CREATE_HWCTX
  | .DESTROY_HWCTX => DRM_AMDXDNA_DESTROY_HWCTX
  | .CONFIG_HWCTX => DRM_AMDXDNA_CONFIG_HWCTX
  | .CREATE_BO => DRM_AMDXDNA_CREATE_BO
  | .GET_BO_INFO => DRM_AMDXDNA_GET_BO_INFO
  | .SYNC_BO => DRM_AMDXDNA_SYNC_BO
  | .EXEC_CMD => DRM_AMDXDNA_EXEC_CMD
  | .GET_INFO => DRM_AMDXDNA_GET_INFO
  | .SET_STATE => DRM_AMDXDNA_SET_STATE
  | .WAIT_CMD => DRM_AMDXDNA_WAIT_CMD
  | .GET_INFO_ARRAY => DRM_AMDXDNA_GET_INFO_ARRAY

/-- The fields the header documents as carrying a context, buffer-object or
sync-object handle, each with the structure that declares it. -/
def handleFields : List (Struct × String) := [
  (amdxdna_drm_create_hwctx, "umq_bo"),
  (amdxdna_drm_create_hwctx, "log_buf_bo"),
  (amdxdna_drm_create_hwctx, "handle"),
  (amdxdna_drm_create_hwctx, "syncobj_handle"),
  (amdxdna_drm_destroy_hwctx, "handle"),
  (amdxdna_cu_config, "cu_bo"),
  (fw_buffer_metadata, "bo_handle"),
  (amdxdna_drm_config_hwctx, "handle"),
  (amdxdna_drm_create_bo, "handle"),
  (amdxdna_drm_get_bo_info, "handle"),
  (amdxdna_drm_sync_bo, "handle"),
  (amdxdna_drm_exec_cmd, "hwctx"),
  (amdxdna_drm_wait_cmd, "hwctx")]

/-! ## Layout without padding -/

/-- Offsets the fields would have with nothing between them: each is the sum
of the sizes of the fields before it. -/
def packedFrom : Nat → List Field → List Nat
  | _, [] => []
  | off, f :: fs => off :: packedFrom (off + f.size) fs

def Struct.packedOffsets (s : Struct) : List Nat := packedFrom 0 s.fields

/-- Sum of the sizes of the fields. -/
def Struct.packedSize (s : Struct) : Nat := (s.fields.map Field.size).sum

/-- Holds when the compiler inserts no padding: every field sits at the sum of
the sizes before it (so is aligned there, a flexible array member included)
and `sizeof` is the sum of the field sizes. -/
def Struct.noPadding (s : Struct) : Bool :=
  s.layout.map (·.2) == s.packedOffsets && s.sizeof == s.packedSize

/-- Width in bits of the elements of a named field. -/
def Struct.fieldBits (s : Struct) (name : String) : Option Nat :=
  (s.field? name).map (·.ty.bits)

/-! ## Field slots and variable-length payloads -/

/-- Signedness of an element type: the `__sN` types are signed. -/
def CTy.signed : CTy → Bool
  | .s8 => true | .s32 => true | .s64 => true
  | _ => false

/-- Where a named field sits and what it holds: its byte offset, element type
(which fixes width and signedness) and element count. -/
def Struct.slot (s : Struct) (name : String) : Option (Nat × CTy × Count) :=
  (s.layout.find? (fun p => p.1.name == name)).map (fun p => (p.2, p.1.ty, p.1.count))

/-- Size in bytes of one element of the flexible array member, 0 when the
structure has none. -/
def Struct.flexElemSize (s : Struct) : Nat :=
  ((s.fields.find? (fun f => f.count == .flexible)).map (·.ty.size)).getD 0

/-- Bytes a structure occupies when its flexible array member holds `n`
elements: `sizeof` of the structure plus `n` elements. -/
def Struct.sizeWith (s : Struct) (n : Nat) : Nat := s.sizeof + n * s.flexElemSize

/-- The cap on a buffer that `amdxdna_drm_config_hwctx.param_val` points to:
"the maximum size of the buffer is 4KiB(PAGE_SIZE)". -/
def PAGE_SIZE : Nat := 4096

/-! ## Driver behaviour the header only implies

The header declares the request structures; the engine behind them is not
part of it. The two definitions below follow the written specification. -/

/-- Error kinds of the specification (section 7). -/
inductive DrvError where
  | InvalidHandle | InvalidArgument | InvalidState
  | ResourceExhausted | Timeout | HardwareFault
  deriving DecidableEq, Repr

/-- The four priority bands. -/
inductive QosBand where
  | realtime | high | normal | low
  deriving DecidableEq, Repr

/-- The `AMDXDNA_QOS_*_PRIORITY` constant that names a band. -/
def QosBand.priority : QosBand → Nat
  | .realtime => AMDXDNA_QOS_REALTIME_PRIORITY
  | .high => AMDXDNA_QOS_HIGH_PRIORITY
  | .normal => AMDXDNA_QOS_NORMAL_PRIORITY
  | .low => AMDXDNA_QOS_LOW_PRIORITY

/-- Position of a band counted from the lowest one. -/
def QosBand.rank : QosBand → Nat
  | .low => 0 | .normal => 1 | .high => 2 | .realtime => 3

/-- The bands from the lowest up. -/
def QosBand.fromLowest : List QosBand := [.low, .normal, .high, .realtime]

/-- Modelled from the spec: the priority step of context creation, which is
driver code the header does not contain. The spec (4.1): "four priority bands
(realtime, high, normal, low) map to four static-priority run queues; values
outside the four defined ranges are accepted and placed in the lowest-matching
band without error". The header gives one constant per band and no extent of
a range, and the spec leaves the band of a value no range holds to the
implementer (section 9), so both are taken as given: `inRange b p` says that
the range of band `b` holds `p`, `fallback p` is the band the driver decides on
for a value no range holds. The step searches the bands from the lowest up and
has no error path. -/
def qosBandOf (inRange : QosBand → Nat → Bool) (fallback : Nat → QosBand)
    (priority : Nat) : Except DrvError QosBand :=
  match QosBand.fromLowest.find? (fun b => inRange b priority) with
  | some b => .ok b
  | none => .ok (fallback priority)

/-- The ranges that hold exactly the constant the header defines for each band. -/
def exactRange (b : QosBand) (p : Nat) : Bool := p == b.priority

/-- Values of `amdxdna_drm_exec_cmd.type`. -/
inductive SubmitType where
  | ExecBuf | Dependency | Signal
  deriving DecidableEq, Repr

/-- The `AMDXDNA_CMD_SUBMIT_*` code of a submission type. -/
def SubmitType.code : SubmitType → Nat
  | .ExecBuf => AMDXDNA_CMD_SUBMIT_EXEC_BUF
  | .Dependency => AMDXDNA_CMD_SUBMIT_DEPENDENCY
  | .Signal => AMDXDNA_CMD_SUBMIT_SIGNAL

/-- One past the largest value of the `__u64 seq` field. -/
def SEQ_LIMIT : Nat := 2 ^ 64

/-- Modelled from the spec: the per-context submission counter of the driver,
which the header does not contain; `next_seq` is the sequence number the next
accepted submission gets. -/
structure HwCtx where
  next_seq : Nat
  deriving DecidableEq, Repr

/-- One submission on a context: its type, and the verdict of the checks that
precede enqueue (`none` when the submission is accepted). -/
structure ExecReq where
  type : SubmitType
  rejected : Option DrvError
  deriving DecidableEq, Repr

/-- Modelled from the spec: one `ExecuteCommand` on a context, which is driver
code the header does not contain. The spec: a submission of any of the three
types "enqueues and returns a sequence number immediately" (5); the number is
"the next sequence number for that context", given in order of acceptance
(4.3); it is a "64-bit sequence number, monotonically increasing per context,
never reused, visible to callers only after successful enqueue" (3) and
sequence numbers "never wrap" (4.3). So a rejected submission returns its
error and leaves the counter alone, an accepted one returns the counter and
advances it by one, and once no unused 64-bit number is left submission is
refused instead of wrapping. -/
def submit (ctx : HwCtx) (req : ExecReq) : Except DrvError Nat × HwCtx :=
  match req.rejected with
  | some e => (.error e, ctx)
  | none =>
    if ctx.next_seq < SEQ_LIMIT then
      (.ok ctx.next_seq, { ctx with next_seq := ctx.next_seq + 1 })
    else
      (.error .ResourceExhausted, ctx)

/-- A run of submissions on one context, in order: the value of
`amdxdna_drm_exec_cmd.seq` returned by each successful one. -/
def returnedSeqs : HwCtx → List ExecReq → List Nat
  | _, [] => []
  | ctx, req :: reqs =>
    match submit ctx req with
    | (.ok seq, ctx') => seq :: returnedSeqs ctx' reqs
    | (.error _, ctx') => returnedSeqs ctx' reqs

end AmdXdna

namespace AmdXdna

/-! ## Constants of the header -/

/-- C1: zero is the invalid handle for all three handle kinds: the context,
buffer-object and fence invalid-handle constants are all 0, hence equal. -/
theorem invalid_handles_all_zero :
    AMDXDNA_INVALID_CTX_HANDLE = 0 ∧ AMDXDNA_INVALID_BO_HANDLE = 0 ∧
    AMDXDNA_INVALID_FENCE_HANDLE = 0 ∧
    AMDXDNA_INVALID_CTX_HANDLE = AMDXDNA_INVALID_BO_HANDLE ∧
    AMDXDNA_INVALID_BO_HANDLE = AMDXDNA_INVALID_FENCE_HANDLE := by
  decide

/-- C2: evaluation of the header at the eleven ioctl request structures: only
`amdxdna_drm_create_hwctx`, `amdxdna_drm_get_bo_info` and `amdxdna_drm_exec_cmd`
declare a field named `ext`; the other eight declare none. -/
theorem ioctl_requests_ext_field :
    ioctlRequests.map (fun r => (r.2.name, r.2.hasField "ext")) =
      [("amdxdna_drm_create_hwctx", true),
       ("amdxdna_drm_destroy_hwctx", false),
       ("amdxdna_drm_config_hwctx", false),
       ("amdxdna_drm_create_bo", false),
       ("amdxdna_drm_get_bo_info", true),
       ("amdxdna_drm_sync_bo", false),
       ("amdxdna_drm_exec_cmd", true),
       ("amdxdna_drm_wait_cmd", false),
       ("amdxdna_drm_get_info", false),
       ("amdxdna_drm_get_info_array", false),
       ("amdxdna_drm_set_state", false)] := by
  decide

/-- C3, as stated, fails: `fw_buffer_metadata.bo_handle` is declared `__u64`,
so not every handle field is 32 bits wide. -/
theorem handle_fields_not_all_32 :
    fw_buffer_metadata.fieldBits "bo_handle" = some 64 ∧
    ¬ (handleFields.all (fun p => p.1.fieldBits p.2 == some 32) = true) := by
  decide

/-- C3, amended: every handle field of the list is exactly 32 bits wide except
`fw_buffer_metadata.bo_handle`, which is 64 bits wide. -/
theorem handle_fields_width :
    handleFields.map (fun p => (p.1.name, p.2, p.1.fieldBits p.2)) =
      [("amdxdna_drm_create_hwctx", "umq_bo", some 32),
       ("amdxdna_drm_create_hwctx", "log_buf_bo", some 32),
       ("amdxdna_drm_create_hwctx", "handle", some 32),
       ("amdxdna_drm_create_hwctx", "syncobj_handle", some 32),
       ("amdxdna_drm_destroy_hwctx", "handle", some 32),
       ("amdxdna_cu_config", "cu_bo", some 32),
       ("fw_buffer_metadata", "bo_handle", some 64),
       ("amdxdna_drm_config_hwctx", "handle", some 32),
       ("amdxdna_drm_create_bo", "handle", some 32),
       ("amdxdna_drm_get_bo_info", "handle", some 32),
       ("amdxdna_drm_sync_bo", "handle", some 32),
       ("amdxdna_drm_exec_cmd", "hwctx", some 32),
       ("amdxdna_drm_wait_cmd", "hwctx", some 32)] := by
  decide

/-- C4: the eleven opcodes are pairwise distinct and are exactly the numbers
0 to 10, and the map from operation to opcode is injective with exactly that
range. -/
theorem opcodes_bijection :
    opcodes = List.range 11 ∧ opcodes.Nodup ∧ opcodes.length = 11 ∧
    (∀ n, n ∈ opcodes ↔ n < 11) ∧
    Function.Injective Operation.opcode ∧
    (∀ n, (∃ op, Operation.opcode op = n) ↔ n < 11) ∧
    (ioctlRequests.map (·.1)).Perm opcodes := by
  refine ⟨by decide, by decide, by decide, ?_, ?_, ?_, by decide⟩
  · intro n
    have h : opcodes = List.range 11 := by decide
    rw [h, List.mem_range]
  · intro a b h
    cases a <;> cases b <;> first | rfl | exact absurd h (by decide)
  · intro n
    constructor
    · rintro ⟨op, rfl⟩
      cases op <;> decide
    · intro h
      have h' : n ∈ List.range 11 := List.mem_range.mpr h
      have e : List.range 11 = Operation.opcode <$>
          [.CREATE_HWCTX, .DESTROY_HWCTX, .CONFIG_HWCTX, .CREATE_BO, .GET_BO_INFO,
           .SYNC_BO, .EXEC_CMD, .GET_INFO, .SET_STATE, .WAIT_CMD, .GET_INFO_ARRAY] := by
        decide
      rw [e] at h'
      obtain ⟨op, _, hop⟩ := List.mem_map.mp h'
      exact ⟨op, hop⟩

/-- C5: the four priority constants are strictly increasing in the order
realtime, high, normal, low (hence pairwise distinct), each fits the 32-bit
`priority` field of `amdxdna_qos_info`, and there are `AMDXDNA_NUM_PRIORITY`,
that is four, of them. -/
theorem qos_priorities_four_bands :
    AMDXDNA_QOS_REALTIME_PRIORITY < AMDXDNA_QOS_HIGH_PRIORITY ∧
    AMDXDNA_QOS_HIGH_PRIORITY < AMDXDNA_QOS_NORMAL_PRIORITY ∧
    AMDXDNA_QOS_NORMAL_PRIORITY < AMDXDNA_QOS_LOW_PRIORITY ∧
    qosPriorities.Pairwise (· < ·) ∧ qosPriorities.Nodup ∧
    amdxdna_qos_info.fieldBits "priority" = some 32 ∧
    (qosPriorities.all (fun p => decide (p < 2 ^ 32))) = true ∧
    qosPriorities.length = AMDXDNA_NUM_PRIORITY ∧ AMDXDNA_NUM_PRIORITY = 4 := by
  decide

/-- C7: the element cap of array queries is 1024, it fits the 32-bit
`num_element` field, and for the one array query, whose element is
`amdxdna_drm_query_hwctx_array`, the buffer size `num_element * element_size`
stays below 2^32 for every element count up to the cap. -/
theorem max_num_element_cap :
    AMDXDNA_MAX_NUM_ELEMENT = 1024 ∧ AMDXDNA_MAX_NUM_ELEMENT < 2 ^ 32 ∧
    amdxdna_drm_get_info_array.fieldBits "num_element" = some 32 ∧
    amdxdna_drm_get_info_array.fieldBits "element_size" = some 32 ∧
    amdxdna_drm_query_hwctx_array.sizeof < 2 ^ 32 ∧
    AMDXDNA_MAX_NUM_ELEMENT * amdxdna_drm_query_hwctx_array.sizeof < 2 ^ 32 ∧
    (∀ n, n ≤ AMDXDNA_MAX_NUM_ELEMENT →
      n * amdxdna_drm_query_hwctx_array.sizeof < 2 ^ 32) := by
  have hs : amdxdna_drm_query_hwctx_array.sizeof = 120 := by decide
  have hm : AMDXDNA_MAX_NUM_ELEMENT = 1024 := rfl
  refine ⟨rfl, by rw [hm]; norm_num, by decide, by decide, by rw [hs]; norm_num,
    by rw [hs, hm]; norm_num, ?_⟩
  intro n hn
  rw [hs]
  rw [hm] at hn
  omega

/-- C8: the five valid buffer-object type codes are pairwise distinct, are
exactly the numbers 1 to 5, and none is the invalid type code 0. -/
theorem bo_types_one_to_five :
    boTypes = [1, 2, 3, 4, 5] ∧ boTypes.Nodup ∧ boTypes.length = 5 ∧
    (∀ n, n ∈ boTypes ↔ 1 ≤ n ∧ n ≤ 5) ∧
    AMDXDNA_BO_INVALID = 0 ∧ AMDXDNA_BO_INVALID ∉ boTypes := by
  refine ⟨by decide, by decide, by decide, ?_, rfl, by decide⟩
  intro n
  have h : boTypes = [1, 2, 3, 4, 5] := by decide
  rw [h]
  simp only [List.mem_cons, List.mem_singleton, List.not_mem_nil, or_false]
  omega

/-! ## Structure layout -/

/-- C10: evaluation of the layout of every structure of the header under
natural alignment: all are free of padding except `fw_buffer_metadata`, where
`command_id` sits at offset 56 and not at 50 and the size is 72 and not 66,
and `amdxdna_drm_query_hwctx_array`, whose size is 120 and not 116. -/
theorem structs_with_padding :
    (allStructs.filter (fun s => !s.noPadding)).map (·.name) =
      ["fw_buffer_metadata", "amdxdna_drm_query_hwctx_array"] ∧
    fw_buffer_metadata.layout.map (fun p => (p.1.name, p.2)) =
      [("buf_type", 0), ("num_ucs", 1), ("pad", 2), ("command_id", 56),
       ("bo_handle", 64), ("uc_info", 72)] ∧
    fw_buffer_metadata.packedOffsets = [0, 1, 2, 50, 58, 66] ∧
    fw_buffer_metadata.sizeof = 72 ∧ fw_buffer_metadata.packedSize = 66 ∧
    amdxdna_drm_query_hwctx_array.layout.map (·.2) =
      amdxdna_drm_query_hwctx_array.packedOffsets ∧
    amdxdna_drm_query_hwctx_array.alignof = 8 ∧
    amdxdna_drm_query_hwctx_array.sizeof = 120 ∧
    amdxdna_drm_query_hwctx_array.packedSize = 116 := by
  decide

/-! ## Priority bands -/

theorem find_fromLowest_inRange (inRange : QosBand → Nat → Bool) (p : Nat) (b : QosBand)
    (h : QosBand.fromLowest.find? (fun c => inRange c p) = some b) :
    inRange b p = true ∧ ∀ c, inRange c p = true → b.rank ≤ c.rank := by
  unfold QosBand.fromLowest at h
  simp only [List.find?] at h
  cases h0 : inRange .low p <;> cases h1 : inRange .normal p <;>
    cases h2 : inRange .high p <;> cases h3 : inRange .realtime p <;>
    simp [h0, h1, h2, h3] at h <;>
    (subst h
     refine ⟨by assumption, ?_⟩
     intro c hc
     cases c <;> simp_all [QosBand.rank])

theorem find_fromLowest_none (inRange : QosBand → Nat → Bool) (p : Nat)
    (h : QosBand.fromLowest.find? (fun c => inRange c p) = none) (c : QosBand) :
    inRange c p = false := by
  unfold QosBand.fromLowest at h
  simp only [List.find?_eq_none, List.mem_cons, List.mem_singleton, List.not_mem_nil,
    or_false, Bool.not_eq_true] at h
  cases c
  · exact h _ (Or.inr (Or.inr (Or.inr rfl)))
  · exact h _ (Or.inr (Or.inr (Or.inl rfl)))
  · exact h _ (Or.inr (Or.inl rfl))
  · exact h _ (Or.inl rfl)

/-- C6: the priority step of context creation is default-permissive. For every
value of `qos.priority` (every 32-bit value included, whether or not it is one
of the four constants) it returns one of the four bands and no error; when a
band's range holds the value the result is the lowest such band, and otherwise
the value is still accepted. With the ranges that hold exactly the header's
constants, each constant goes to the band it names. -/
theorem qosBandOf_permissive (inRange : QosBand → Nat → Bool) (fallback : Nat → QosBand)
    (priority : Nat) :
    (∃ b : QosBand, qosBandOf inRange fallback priority = .ok b ∧
      b ∈ [QosBand.realtime, .high, .normal, .low] ∧
      ((∃ c, inRange c priority = true) →
        inRange b priority = true ∧ ∀ c, inRange c priority = true → b.rank ≤ c.rank) ∧
      ((∀ c, inRange c priority = false) → b = fallback priority)) ∧
    (∀ e, qosBandOf inRange fallback priority ≠ .error e) ∧
    (∀ c : QosBand, qosBandOf exactRange fallback c.priority = .ok c) := by
  refine ⟨?_, ?_, ?_⟩
  · unfold qosBandOf
    cases hf : QosBand.fromLowest.find? (fun b => inRange b priority) with
    | none =>
      refine ⟨fallback priority, rfl, ?_, ?_, fun _ => rfl⟩
      · cases fallback priority <;> simp
      · rintro ⟨c, hc⟩
        rw [find_fromLowest_none inRange priority hf c] at hc
        exact absurd hc (by simp)
    | some b =>
      refine ⟨b, rfl, ?_, fun _ => find_fromLowest_inRange inRange priority b hf, ?_⟩
      · cases b <;> simp
      · intro hall
        have := (find_fromLowest_inRange inRange priority b hf).1
        rw [hall b] at this
        exact absurd this (by simp)
  · intro e
    unfold qosBandOf
    cases QosBand.fromLowest.find? (fun b => inRange b priority) <;> simp
  · intro c
    cases c <;> rfl

/-! ## Sequence numbers of one context -/

theorem returnedSeqs_rejected (ctx : HwCtx) (req : ExecReq) (reqs : List ExecReq)
    (e : DrvError) (h : req.rejected = some e) :
    returnedSeqs ctx (req :: reqs) = returnedSeqs ctx reqs := by
  simp [returnedSeqs, submit, h]

theorem returnedSeqs_exhausted (ctx : HwCtx) (req : ExecReq) (reqs : List ExecReq)
    (h : req.rejected = none) (hfull : ¬ ctx.next_seq < SEQ_LIMIT) :
    returnedSeqs ctx (req :: reqs) = returnedSeqs ctx reqs := by
  simp [returnedSeqs, submit, h, hfull]

theorem returnedSeqs_accepted (ctx : HwCtx) (req : ExecReq) (reqs : List ExecReq)
    (h : req.rejected = none) (hfree : ctx.next_seq < SEQ_LIMIT) :
    returnedSeqs ctx (req :: reqs) =
      ctx.next_seq :: returnedSeqs { next_seq := ctx.next_seq + 1 } reqs := by
  simp [returnedSeqs, submit, h, hfree]

/-- Every returned sequence number is at least the counter the run started
from and fits 64 bits. -/
theorem returnedSeqs_bounds (reqs : List ExecReq) :
    ∀ (ctx : HwCtx) (s : Nat), s ∈ returnedSeqs ctx reqs →
      ctx.next_seq ≤ s ∧ s < SEQ_LIMIT := by
  induction reqs with
  | nil => intro ctx s h; simp [returnedSeqs] at h
  | cons req reqs ih =>
    intro ctx s h
    cases hr : req.rejected with
    | some e =>
      rw [returnedSeqs_rejected ctx req reqs e hr] at h
      exact ih ctx s h
    | none =>
      by_cases hfree : ctx.next_seq < SEQ_LIMIT
      · rw [returnedSeqs_accepted ctx req reqs hr hfree] at h
        rcases List.mem_cons.mp h with rfl | h
        · exact ⟨le_refl _, hfree⟩
        · have := ih _ s h
          exact ⟨by have := this.1; simp at this; omega, this.2⟩
      · rw [returnedSeqs_exhausted ctx req reqs hr hfree] at h
        exact ih ctx s h

/-- While unused 64-bit numbers remain, every accepted submission gets one:
a run of accepted submissions returns consecutive numbers from the counter on. -/
theorem returnedSeqs_all_accepted (reqs : List ExecReq) :
    ∀ (ctx : HwCtx), (∀ r ∈ reqs, r.rejected = none) →
      ctx.next_seq + reqs.length ≤ SEQ_LIMIT →
      returnedSeqs ctx reqs = List.range' ctx.next_seq reqs.length := by
  induction reqs with
  | nil => intro ctx _ _; simp [returnedSeqs]
  | cons req reqs ih =>
    intro ctx hacc hlen
    have hr : req.rejected = none := hacc req (List.mem_cons_self _ _)
    have hfree : ctx.next_seq < SEQ_LIMIT := by
      simp only [List.length_cons] at hlen
      omega
    rw [returnedSeqs_accepted ctx req reqs hr hfree]
    rw [ih _ (fun r hr' => hacc r (List.mem_cons_of_mem _ hr'))
      (by simp only [List.length_cons] at hlen ⊢; omega)]
    simp [List.range'_succ]

/-- C9: for every run of submissions of any types on one context, from any
state of its counter, the sequence numbers returned by the successful ones are
strictly increasing in submission order, so none occurs twice, and each fits
the 64-bit `seq` field. -/
theorem returnedSeqs_strictly_increasing (ctx : HwCtx) (reqs : List ExecReq) :
    (returnedSeqs ctx reqs).Pairwise (· < ·) ∧ (returnedSeqs ctx reqs).Nodup ∧
    (∀ s ∈ returnedSeqs ctx reqs, s < 2 ^ 64) ∧
    amdxdna_drm_exec_cmd.fieldBits "seq" = some 64 := by
  have hp : ∀ (reqs : List ExecReq) (ctx : HwCtx),
      (returnedSeqs ctx reqs).Pairwise (· < ·) := by
    intro reqs
    induction reqs with
    | nil => intro ctx; simp [returnedSeqs]
    | cons req reqs ih =>
      intro ctx
      cases hr : req.rejected with
      | some e =>
        rw [returnedSeqs_rejected ctx req reqs e hr]
        exact ih ctx
      | none =>
        by_cases hfree : ctx.next_seq < SEQ_LIMIT
        · rw [returnedSeqs_accepted ctx req reqs hr hfree]
          refine List.pairwise_cons.mpr ⟨?_, ih _⟩
          intro s hs
          have := (returnedSeqs_bounds reqs _ s hs).1
          simp at this
          omega
        · rw [returnedSeqs_exhausted ctx req reqs hr hfree]
          exact ih ctx
  refine ⟨hp reqs ctx, ?_, ?_, by decide⟩
  · exact (hp reqs ctx).imp (fun h => Nat.ne_of_lt h)
  · intro s hs
    exact (returnedSeqs_bounds reqs ctx s hs).2

/-- C9 at a concrete run that reaches the end of the 64-bit range: two
accepted submissions get the last two numbers, a rejected one and one made
after the range is used up get none, and the returned numbers increase. -/
theorem returnedSeqs_strictly_increasing_witness :
    returnedSeqs { next_seq := SEQ_LIMIT - 2 }
        [⟨.ExecBuf, none⟩, ⟨.Dependency, some .InvalidArgument⟩, ⟨.Signal, none⟩,
         ⟨.ExecBuf, none⟩] =
      [18446744073709551614, 18446744073709551615] ∧
    (returnedSeqs { next_seq := SEQ_LIMIT - 2 }
        [⟨.ExecBuf, none⟩, ⟨.Dependency, some .InvalidArgument⟩, ⟨.Signal, none⟩,
         ⟨.ExecBuf, none⟩]).Pairwise (· < ·) :=
  ⟨by decide, (returnedSeqs_strictly_increasing _ _).1⟩

/-- C6 at concrete inputs, with the ranges that hold exactly the header's
constants and a driver that decides on the normal band otherwise: the value 0
and the value 0x1c0, neither a defined constant, are accepted. -/
theorem qosBandOf_permissive_witness :
    qosBandOf exactRange (fun _ => .normal) 0 = .ok .normal ∧
    qosBandOf exactRange (fun _ => .normal) 0x1c0 = .ok .normal ∧
    qosBandOf exactRange (fun _ => .normal) AMDXDNA_QOS_LOW_PRIORITY = .ok .low ∧
    (∀ e, qosBandOf exactRange (fun _ => .normal) 0x1c0 ≠ .error e) :=
  ⟨rfl, rfl, rfl,
    (qosBandOf_permissive exactRange (fun _ => .normal) 0x1c0).2.1⟩

/-! ## The context query record and its array form -/

/-- C11: `amdxdna_drm_query_hwctx_array` extends the layout of the frozen
`amdxdna_drm_query_hwctx`. The frozen structure is exactly 64 bytes; each of
its nine fields other than `pad` is in the array structure under the same
name, at the same byte offset, with the same width and signedness; and the
slot of `pad` (offset 12, 4 bytes) is the slot of `hwctx_id`. -/
theorem query_hwctx_array_extends_query_hwctx :
    amdxdna_drm_query_hwctx.sizeof = 64 ∧
    (amdxdna_drm_query_hwctx.fields.filter (fun f => f.name != "pad")).map (·.name) =
      ["context_id", "start_col", "num_col", "pid", "command_submissions",
       "command_completions", "migrations", "preemptions", "errors"] ∧
    ((amdxdna_drm_query_hwctx.fields.filter (fun f => f.name != "pad")).all (fun f =>
      (amdxdna_drm_query_hwctx.slot f.name).isSome &&
      amdxdna_drm_query_hwctx_array.slot f.name == amdxdna_drm_query_hwctx.slot f.name)) =
      true ∧
    (amdxdna_drm_query_hwctx.fields.filter (fun f => f.name != "pad")).map
        (fun f => (amdxdna_drm_query_hwctx_array.offsetof f.name,
          (amdxdna_drm_query_hwctx_array.field? f.name).map
            (fun g => (g.ty.bits, g.ty.signed)))) =
      [(some 0, some (32, false)), (some 4, some (32, false)), (some 8, some (32, false)),
       (some 16, some (64, true)), (some 24, some (64, false)), (some 32, some (64, false)),
       (some 40, some (64, false)), (some 48, some (64, false)),
       (some 56, some (64, false))] ∧
    amdxdna_drm_query_hwctx.slot "pad" = some (12, .u32, .one) ∧
    amdxdna_drm_query_hwctx_array.slot "hwctx_id" = some (12, .u32, .one) ∧
    amdxdna_drm_query_hwctx_array.hasField "pad" = false ∧
    (amdxdna_drm_query_hwctx_array.layout.take 10).map (fun p => (p.2, p.1.ty, p.1.count)) =
      amdxdna_drm_query_hwctx.layout.map (fun p => (p.2, p.1.ty, p.1.count)) := by
  decide

/-! ## Variable-length configuration payloads -/

/-- C12: a `amdxdna_hwctx_param_config_cu` with `n` CU entries occupies
exactly `8 + 8 * n` bytes, so it fits the 4096-byte parameter buffer exactly
when `n ≤ 511`, although the 16-bit `num_cus` can say up to 65535; and a
`fw_buffer_metadata` with `num_ucs` entries of 8 bytes each fits 4096 bytes
for every value of the 8-bit `num_ucs`. -/
theorem config_payloads_against_page :
    (∀ n, amdxdna_hwctx_param_config_cu.sizeWith n = 8 + 8 * n) ∧
    (∀ n, amdxdna_hwctx_param_config_cu.sizeWith n ≤ PAGE_SIZE ↔ n ≤ 511) ∧
    amdxdna_hwctx_param_config_cu.fieldBits "num_cus" = some 16 ∧
    2 ^ 16 - 1 = 65535 ∧
    ¬ amdxdna_hwctx_param_config_cu.sizeWith 65535 ≤ PAGE_SIZE ∧
    fw_buffer_metadata.flexElemSize = 8 ∧ uc_info_entry.sizeof = 8 ∧
    fw_buffer_metadata.fieldBits "num_ucs" = some 8 ∧
    (∀ n, n < 2 ^ 8 → fw_buffer_metadata.sizeWith n ≤ PAGE_SIZE) ∧
    fw_buffer_metadata.sizeWith 255 = 2112 := by
  have hc : amdxdna_hwctx_param_config_cu.sizeof = 8 := by decide
  have hce : amdxdna_hwctx_param_config_cu.flexElemSize = 8 := by decide
  have hf : fw_buffer_metadata.sizeof = 72 := by decide
  have hfe : fw_buffer_metadata.flexElemSize = 8 := by decide
  have hcs : ∀ n, amdxdna_hwctx_param_config_cu.sizeWith n = 8 + 8 * n := by
    intro n
    unfold Struct.sizeWith
    rw [hc, hce]
    omega
  have hfs : ∀ n, fw_buffer_metadata.sizeWith n = 72 + 8 * n := by
    intro n
    unfold Struct.sizeWith
    rw [hf, hfe]
    omega
  have hp : PAGE_SIZE = 4096 := rfl
  refine ⟨hcs, ?_, by decide, by norm_num, ?_, hfe, by decide, by decide, ?_, ?_⟩
  · intro n
    rw [hcs, hp]
    omega
  · rw [hcs, hp]
    omega
  · intro n hn
    rw [hfs, hp]
    omega
  · rw [hfs]

end AmdXdna
